import Mathlib

/-!
Shallow embedding of the KAlarm alarm-dispatch engine (src/kalarmapp.cpp).

The engine's observable behaviour is modelled as pure functions from an
explicit application state (`AppState`) to a new state together with a list of
`Effect`s: one trace entry per call into an external collaborator (daemon
notifier, calendar persistence, message-window display, process spawning).
Machine integers are modelled as `Int`; date-times (`KDateTime`) are modelled
as a number of seconds on an absolute scale, with local "clock time" values
living on their own scale related to UTC by a fixed offset held in `Env`.

External collaborator interfaces (the `KAEvent` recurrence machinery, the
calendar store in functions.cpp, the daemon in daemon.cpp) are not part of
src/; they are modelled from the specification as oracle function fields or
as effect-emitting helpers, each marked `Modelled from the spec:` below.
-/

namespace Kalarm

/-- KAAlarm::Type tag (kalarmapp.cpp uses MAIN_ALARM, REMINDER_ALARM,
DEFERRED_ALARM, DEFERRED_REMINDER_ALARM, AT_LOGIN_ALARM). -/
inductive AlarmType where
  | main
  | reminder
  | deferred
  | deferredReminder
  | atLogin
  deriving DecidableEq, Repr

/-- KAAlarm::deferred(): the deferred bit of the type tag. -/
def AlarmType.deferredP : AlarmType → Bool
  | .deferred => true
  | .deferredReminder => true
  | _ => false

/-- KAAlarm::reminder() / the REMINDER_ALARM bit of the type tag. -/
def AlarmType.reminderP : AlarmType → Bool
  | .reminder => true
  | .deferredReminder => true
  | _ => false

/-- KAAlarm::repeatAtLogin(). -/
def AlarmType.repeatAtLoginP : AlarmType → Bool
  | .atLogin => true
  | _ => false

/-- KAAlarm::Action: the action kind of an alarm. -/
inductive AlarmAction where
  | message
  | file
  | command
  | email
  deriving DecidableEq, Repr

/-- KAEvent::OccurType without the OCCURRENCE_REPEAT bit. -/
inductive OccurBase where
  | noOccurrence
  | firstOrOnly
  | recurrenceDate
  | recurrenceDateTime
  | lastRecurrence
  deriving DecidableEq, Repr

/-- KAEvent::OccurType: a base tag optionally combined with the
OCCURRENCE_REPEAT modifier bit. -/
structure OccurType where
  base : OccurBase
  isRepeat : Bool
  deriving DecidableEq, Repr

/-- KDateTime, modelled as seconds on an absolute scale.  `clockTime` values
live on the local clock scale (KDateTime::ClockTime); `dateOnly` values sit at
their start-of-day instant.  `valid` models KDateTime::isValid(). -/
structure DateTime where
  secs : Int
  dateOnly : Bool
  clockTime : Bool
  valid : Bool
  deriving DecidableEq, Repr

/-- Read-only environment: the current time, fixed collaborator configuration
and oracle functions for external services consulted during a single engine
invocation. -/
structure Env where
  /-- KDateTime::currentUtcDateTime(), in seconds. -/
  now : Int
  /-- offset of the local clock-time scale from UTC, in seconds. -/
  clockOffset : Int
  /-- Modelled from the spec: Daemon::maxTimeSinceCheck() (daemon.cpp is not
  under src/), the daemon check interval in seconds. -/
  daemonCheckInterval : Int
  /-- Preferences::cmdXTermCommand(). -/
  cmdXTermCommand : String
  /-- aboutData()->programName(). -/
  programName : String
  /-- ShellProcess::authorised(). -/
  shellAuthorised : Bool
  /-- KShellProcess::quote: shell quoting performed by the toolkit. -/
  quoteFn : String → String
  /-- oracle for KTemporaryFile: the name of the n-th temporary script file
  created during this invocation, or none if creation fails. -/
  tempFile : Nat → Option String
  /-- oracle for ShellProcess::start: whether the process with the given
  handle starts successfully. -/
  procStartOk : Nat → Bool
  /-- oracle for KAMail::send: whether the send succeeds for an event id. -/
  mailSendOk : String → Bool
  /-- oracle for KAMail::send: whether it reports error messages. -/
  mailErrors : String → Bool

/-- `now` converted to the scale of a date-time (`now.toTimeSpec`):
clock-time values live at offset `clockOffset` from UTC. -/
def Env.nowIn (env : Env) (clock : Bool) : Int :=
  if clock then env.now + env.clockOffset else env.now

/-- KDateTime::secsTo(now): seconds from the date-time to the current time
(positive when the date-time lies in the past). -/
def DateTime.secsTo (dt : DateTime) (env : Env) : Int :=
  env.nowIn dt.clockTime - dt.secs

/-- the current time as a date-time value (used by `alarm.setTime(now)`). -/
def DateTime.fromNow (env : Env) : DateTime :=
  { secs := env.now, dateOnly := false, clockTime := false, valid := true }

/-- maxLateness (kalarmapp.cpp lines 76-81): the maximum number of seconds
late which a late-cancel alarm is allowed to be, i.e. the alarm daemon's
check interval plus a 5-second leeway, plus one minute per late-cancel minute
beyond the first.  A pure function of its arguments. -/
def maxLateness (env : Env) (lateCancel : Int) : Int :=
  let latenessLeeway : Int := 5
  let lc : Int := if lateCancel ≥ 1 then (lateCancel - 1) * 60 else 0
  env.daemonCheckInterval + latenessLeeway + lc

/-- KAAlarm: one concrete alarm instance belonging to an event. -/
structure KAAlarm where
  atype : AlarmType
  action : AlarmAction
  dateTime : DateTime
  /-- late-cancel threshold in minutes; 0 = never cancel. -/
  lateCancel : Int
  /-- KAAlarm::valid(). -/
  valid : Bool
  deriving DecidableEq, Repr

/-- the invalid alarm returned by KAEvent::firstAlarm() on an alarm-less
event. -/
def invalidAlarm : KAAlarm :=
  { atype := .main, action := .message
    dateTime := { secs := 0, dateOnly := false, clockTime := false, valid := false }
    lateCancel := 0, valid := false }

/-- Modelled from the spec: the KAEvent event/alarm data model (alarmevent.cpp
is not under src/).  An event owns its alarm instances (enumerated main
first, as KAEvent::firstAlarm/nextAlarm do); the recurrence machinery
(previousOccurrence / setNextOccurrence) is represented by oracle function
fields returning the occurrence type and the corresponding date-time (none
standing for an invalid KDateTime). -/
structure KAEvent where
  id : String
  /-- the alarm instances, in firstAlarm/nextAlarm enumeration order
  (the main alarm first). -/
  alarms : List KAAlarm
  /-- simple-repetition count (KAEvent::repeatCount()). -/
  repeatCount : Nat
  /-- KAEvent::recurs(). -/
  recurs : Bool
  enabled : Bool
  /-- KAEvent::toBeArchived(). -/
  toBeArchived : Bool
  /-- KAEvent::displaying(). -/
  displaying : Bool
  /-- KAEvent::updated(). -/
  updated : Bool
  /-- whether a cancelled-deferral marker is present. -/
  cancelledDeferral : Bool
  /-- KAEvent::mainEndRepeatTime(). -/
  mainEndRepeatTime : DateTime
  /-- oracle for KAEvent::previousOccurrence(t, result, includeRepetitions
  = true): the most recent occurrence at or before t. -/
  prevOcc : Int → OccurType × Option DateTime
  /-- oracle for KAEvent::setNextOccurrence(t, includeRepetitions): the
  occurrence type and the new main date-time. -/
  nextOcc : Int → Bool → OccurType × Option DateTime
  /-- KAEvent::preAction(). -/
  preAction : String
  /-- KAEvent::postAction(). -/
  postAction : String
  /-- KAEvent::cleanText(). -/
  cleanText : String
  /-- KAEvent::logFile(). -/
  logFile : String
  /-- KAEvent::commandXterm(). -/
  cmdXterm : Bool
  /-- KAEvent::commandScript(). -/
  cmdScript : Bool

/-- KAEvent::setArchive(). -/
def KAEvent.setArchive (e : KAEvent) : KAEvent :=
  { e with toBeArchived := true }

/-- KAEvent::cancelCancelledDeferral(). -/
def KAEvent.cancelCancelledDeferralE (e : KAEvent) : KAEvent :=
  { e with cancelledDeferral := false }

/-- KAEvent::setUpdated(). -/
def KAEvent.setUpdated (e : KAEvent) : KAEvent :=
  { e with updated := true }

/-- Modelled from the spec: KAEvent::removeExpiredAlarm removes the alarm
instance of the given type from the event. -/
def KAEvent.removeExpiredAlarm (e : KAEvent) (t : AlarmType) : KAEvent :=
  { e with alarms := e.alarms.filter (fun a => ¬(a.atype = t)) }

/-- KAEvent::alarmCount(). -/
def KAEvent.alarmCount (e : KAEvent) : Nat :=
  e.alarms.length

/-- KAEvent::firstAlarm(): the first alarm in enumeration order, or the
invalid alarm when none exist. -/
def KAEvent.firstAlarm (e : KAEvent) : KAAlarm :=
  e.alarms.headD invalidAlarm

/-- KAEvent::deferred(): whether the event carries a deferred alarm. -/
def KAEvent.deferredE (e : KAEvent) : Bool :=
  e.alarms.any (fun a => a.atype.deferredP)

/-- KAEvent::setNextOccurrence: advance the event past `t`; when the oracle
supplies the next occurrence's date-time, the main alarm is moved there. -/
def KAEvent.setNextOccurrenceE (e : KAEvent) (t : Int) (includeReps : Bool) :
    OccurType × KAEvent :=
  let r := e.nextOcc t includeReps
  match r.2 with
  | some d =>
      let moved := e.alarms.map
        (fun a => if a.atype = .main then { a with dateTime := d } else a)
      (r.1, { e with alarms := moved })
  | none => (r.1, e)

/-- the calendar store's live-event collection. -/
abbrev Calendar := List KAEvent

/-- AlarmCalendar::resources()->event(id): look up a live event by id. -/
def Calendar.find (cal : Calendar) (id : String) : Option KAEvent :=
  List.find? (fun e => decide (e.id = id)) cal

/-- Modelled from the spec: persistence of delete in the calendar store. -/
def Calendar.remove (cal : Calendar) (id : String) : Calendar :=
  List.filter (fun e => ¬(e.id = id)) cal

/-- Modelled from the spec: persistence of update in the calendar store. -/
def Calendar.update (cal : Calendar) (e : KAEvent) : Calendar :=
  List.map (fun x => if x.id = e.id then e else x) cal

/-- one trace entry per call into an external collaborator. -/
inductive Effect where
  /-- Daemon::eventHandled(id): acknowledge the event to the daemon. -/
  | eventHandled (id : String)
  /-- an invocation of KAlarmApp::execAlarm with the given arguments
  (recorded at its entry). -/
  | execAlarmCall (id : String) (atype : AlarmType)
      (reschedule allowDefer noPreAction : Bool)
  /-- KAlarm::updateEvent: persist the event and refresh window lists. -/
  | updateEvent (id : String)
  /-- KAlarm::deleteEvent: remove the event from the calendar file. -/
  | deleteEvent (id : String) (archive : Bool)
  /-- KAlarm::addArchivedEvent: save the event in the archived resources. -/
  | addArchivedEvent (id : String)
  /-- KAlarm::addEvent: insert a new event into the calendar file. -/
  | addEvent (id : String)
  /-- AlarmListView::modifyEvent: refresh the display-layer time only. -/
  | modifyEventDisplay (id : String)
  /-- KAlarm::resetDaemonIfQueued. -/
  | resetDaemonIfQueued
  /-- AlarmCalendar::resources()->purgeIfQueued(). -/
  | purgeIfQueued
  /-- quitIf(code): resume a pending quit. -/
  | quitIfEff (code : Int)
  /-- deletion of a temporary script file (ProcData destructor). -/
  | removeTempFile (path : String)
  /-- construction of a new MessageWin for the event. -/
  | createMessageWin (id : String) (noRescheduleFlag noDeferFlag : Bool)
  /-- deletion of an existing MessageWin. -/
  | deleteMessageWin (id : String)
  /-- MessageWin::repeat: raise the existing window and replay sound. -/
  | repeatMessageWin (id : String)
  /-- a synthesized error message window. -/
  | errorMessageWin (msg : String)
  /-- KMessageBox::error raised on a registered message-box parent. -/
  | messageBoxError
  /-- ShellProcess::start for the built command line. -/
  | startProcess (procId : Nat) (cmd : String)
  /-- start of a companion logging sub-process. -/
  | startLogProcess (procId : Nat) (logFile : String)
  /-- ShellProcess::stdinExit on a logging sub-process. -/
  | stdinExit (procId : Nat)
  /-- KAMail::send for the event. -/
  | sendEmail (id : String) (allowDisable : Bool)
  /-- QTimer::singleShot(0, processQueue): schedule a queue drain. -/
  | singleShotProcessQueue
  deriving DecidableEq, Repr

/-- whether a trace entry records an execAlarm invocation. -/
def Effect.isExecCall : Effect → Bool
  | .execAlarmCall _ _ _ _ _ => true
  | _ => false

/-- whether a trace entry records a temporary-file deletion. -/
def Effect.isRemoveTemp : Effect → Bool
  | .removeTempFile _ => true
  | _ => false

/-- the display collaborator's record of one message window
(MessageWin::findEvent / hasDefer / alarmType). -/
structure MessageWinInfo where
  eventId : String
  hasDefer : Bool
  /-- whether the window's alarm type carries the REMINDER_ALARM bit. -/
  alarmTypeReminder : Bool
  deriving DecidableEq, Repr

/-- the flag bits of KAlarmApp::ProcData. -/
structure ProcFlags where
  preAction : Bool
  postAction : Bool
  reschedule : Bool
  allowDefer : Bool
  execInXterm : Bool
  tempFile : Bool
  deriving DecidableEq, Repr

/-- the all-clear flag set. -/
def ProcFlags.none : ProcFlags :=
  { preAction := false, postAction := false, reschedule := false
    allowDefer := false, execInXterm := false, tempFile := false }

/-- KAlarmApp::ProcData: a tracked in-flight command execution. -/
structure ProcData where
  /-- handle of the running ShellProcess. -/
  process : Nat
  /-- handle of the companion logging sub-process, if any. -/
  logProcess : Option Nat
  /-- owned copy of the originating event. -/
  event : KAEvent
  /-- owned copy of the originating alarm (null for post-actions). -/
  alarm : Option KAAlarm
  /-- whether an informational KMessageBox parent was registered. -/
  messageBoxParent : Bool
  flags : ProcFlags
  /-- temporary script files to delete on completion. -/
  tempFiles : List String

/-- EventFunc: what to do with an event received by handleEvent. -/
inductive EventFunc where
  | trigger
  | handle
  | cancel
  deriving DecidableEq, Repr

/-- DcopQEntry: one pending alarm-notification request. -/
inductive DcopQEntry where
  /-- a fully-formed new event (entry.eventId empty in the source). -/
  | newEvent (event : KAEvent) (function : EventFunc)
  /-- an event-id reference to be looked up in the calendar. -/
  | byId (eventId : String) (function : EventFunc)

/-- the mutable state of the application controller. -/
structure AppState where
  mInitialised : Bool
  mProcessingQueue : Bool
  mDcopQueue : List DcopQEntry
  mPendingQuit : Bool
  mPendingQuitCode : Int
  /-- the live events of the calendar store. -/
  calendar : Calendar
  /-- the display collaborator's open message windows. -/
  displays : List MessageWinInfo
  /-- mCommandProcesses: the command execution tracker. -/
  tracker : List ProcData
  /-- next fresh ShellProcess handle. -/
  nextProcId : Nat
  /-- next fresh temporary-file index. -/
  nextTempId : Nat

/-- Modelled from the spec: KAlarm::addEvent (functions.cpp is not under
src/) inserts a new event into the calendar store. -/
def KAlarm.addEvent (s : AppState) (event : KAEvent) : AppState × List Effect :=
  ({ s with calendar := s.calendar ++ [event] }, [Effect.addEvent event.id])

/-- Modelled from the spec: KAlarm::updateEvent (functions.cpp is not under
src/) persists the updated event and refreshes the window lists. -/
def KAlarm.updateEvent (s : AppState) (event : KAEvent) : AppState × List Effect :=
  ({ s with calendar := Calendar.update s.calendar event }, [Effect.updateEvent event.id])

/-- Modelled from the spec: KAlarm::deleteEvent (functions.cpp is not under
src/) removes the event from the calendar store (archiving it first when the
`archive` flag is set). -/
def KAlarm.deleteEvent (s : AppState) (event : KAEvent) (archive : Bool) :
    AppState × List Effect :=
  ({ s with calendar := Calendar.remove s.calendar event.id },
   [Effect.deleteEvent event.id archive])

/-- Modelled from the spec: KAlarm::addArchivedEvent (functions.cpp is not
under src/) saves the event in the archived resources; the caller saves and
restores the event id around it, so the live event is unchanged. -/
def KAlarm.addArchivedEvent (event : KAEvent) : List Effect :=
  [Effect.addArchivedEvent event.id]

/-- result of KAlarmApp::cancelAlarm / rescheduleAlarm: the new application
state, the mutated event (passed by reference in the source) and the trace. -/
structure CREResult where
  app : AppState
  event : KAEvent
  effects : List Effect

/-- KAlarmApp::cancelAlarm (kalarmapp.cpp lines 1521-1537): delete the alarm;
if it is the last alarm for its event, the event is removed from the
calendar file. -/
def cancelAlarm (s : AppState) (event : KAEvent) (alarmType : AlarmType)
    (updateCalAndDisplay : Bool) : CREResult :=
  let event := event.cancelCancelledDeferralE
  let archiveEffs :=
    if alarmType = .main ∧ event.displaying = false ∧ event.toBeArchived = true then
      KAlarm.addArchivedEvent event
    else []
  let event := event.removeExpiredAlarm alarmType
  if event.alarmCount = 0 then
    let r := KAlarm.deleteEvent s event false
    ⟨r.1, event, archiveEffs ++ r.2⟩
  else if updateCalAndDisplay then
    let r := KAlarm.updateEvent s event
    ⟨r.1, event, archiveEffs ++ r.2⟩
  else
    ⟨s, event, archiveEffs⟩

/-- the tail of rescheduleAlarm (kalarmapp.cpp lines 1505-1514): persist the
event when the `update` flag was set, else refresh only the display layer
when `updateDisplay` was set. -/
def rescheduleFinish (s : AppState) (event : KAEvent)
    (update updateDisplay : Bool) (effs : List Effect) : CREResult :=
  if update = true then
    let event := event.cancelCancelledDeferralE
    let r := KAlarm.updateEvent s event
    ⟨r.1, event, effs ++ r.2⟩
  else if updateDisplay = true then
    ⟨s, event, effs ++ [Effect.eventHandled event.id, Effect.modifyEventDisplay event.id]⟩
  else
    ⟨s, event, effs⟩

/-- the deferred-alarm cleanup of rescheduleAlarm (kalarmapp.cpp lines
1498-1503): if a deferred alarm lingers, remove it and force an update. -/
def rescheduleDropDeferral (s : AppState) (event : KAEvent)
    (update updateDisplay : Bool) (effs : List Effect) : CREResult :=
  if event.deferredE = true then
    rescheduleFinish s (event.removeExpiredAlarm .deferred) true updateDisplay effs
  else
    rescheduleFinish s event update updateDisplay effs

/-- KAlarmApp::rescheduleAlarm (kalarmapp.cpp lines 1448-1515): reschedule
the alarm for its next recurrence; if none remain, delete it. -/
def rescheduleAlarm (env : Env) (s : AppState) (event : KAEvent) (alarm : KAAlarm)
    (updateCalAndDisplay : Bool) : CREResult :=
  if alarm.atype.reminderP = true ∨ alarm.atype.deferredP = true then
    -- an advance warning alarm or an extra deferred alarm: delete it
    rescheduleFinish s (event.removeExpiredAlarm alarm.atype) true false []
  else if alarm.atype.repeatAtLoginP = true then
    -- leave an at-login alarm until its main alarm is deleted
    rescheduleFinish s event (updateCalAndDisplay && event.updated) false []
  else if event.repeatCount ≠ 0 ∧
      env.nowIn event.mainEndRepeatTime.clockTime < event.mainEndRepeatTime.secs then
    -- more repetitions to come: just update the time in the alarm list
    rescheduleDropDeferral s event false true []
  else
    -- the repetitions are finished: reschedule for the next recurrence
    let n := event.setNextOccurrenceE env.now false
    if n.1.isRepeat = false ∧ n.1.base = .noOccurrence then
      -- all repetitions are finished: cancel the event
      let r := cancelAlarm s n.2 alarm.atype updateCalAndDisplay
      rescheduleDropDeferral r.app r.event false false r.effects
    else if n.1.isRepeat = false ∧
        (n.1.base = .recurrenceDate ∨ n.1.base = .recurrenceDateTime ∨
         n.1.base = .lastRecurrence) then
      -- the event is due by now and repetitions remain: rewrite the event
      if updateCalAndDisplay then
        rescheduleDropDeferral s n.2 true false []
      else
        rescheduleDropDeferral s n.2.cancelCancelledDeferralE.setUpdated false false []
    else
      -- FIRST_OR_ONLY_OCCURRENCE or a repeat-tagged result: do nothing
      rescheduleDropDeferral s n.2 false false []

/-- whether `pat` occurs in `s` (cmd.indexOf(pat) >= 0). -/
def containsSub (s pat : String) : Bool :=
  (s.splitOn pat).length ≠ 1

/-- result of createTempScriptFile: state, path (none on failure), trace. -/
structure TempResult where
  app : AppState
  path : Option String
  effects : List Effect

/-- KAlarmApp::createTempScriptFile (kalarmapp.cpp lines 1755-1778): create a
temporary executable script file holding the command (the `tempFile` oracle
supplies the file name, or none when creation or writing fails, in which case
an error message window is shown). -/
def createTempScriptFile (env : Env) (s : AppState) (_command : String)
    (_insertShell : Bool) : TempResult :=
  let s' := { s with nextTempId := s.nextTempId + 1 }
  match env.tempFile s.nextTempId with
  | some name => ⟨s', some name, []⟩
  | none =>
      ⟨s', none, [Effect.errorMessageWin "Error creating temporary script file"]⟩

/-- KAlarmApp::commandErrorMsg (kalarmapp.cpp lines 1861-1872): synthesize an
error message window for a failed shell command. -/
def commandErrorMsg (flags : ProcFlags) : List Effect :=
  [Effect.errorMessageWin
    (if flags.preAction then "Pre-alarm action:"
     else if flags.postAction then "Post-alarm action:" else "")]

/-- result of doShellCommand: state, process handle (none on failure),
trace. -/
structure ShellResult where
  app : AppState
  proc : Option Nat
  effects : List Effect

/-- the configured terminal command with the window title substituted
(kalarmapp.cpp lines 1664-1665). -/
def xtermCmd (env : Env) : String :=
  env.cmdXTermCommand.replace "%t" env.programName

/-- the command line built by doShellCommand (kalarmapp.cpp lines
1661-1710), together with any extra temporary script file created and
whether output communication is enabled.  Returns none when a temporary
script file could not be created (doShellCommand returns 0). -/
def buildCommandLine (env : Env) (s : AppState) (command : String)
    (flags : ProcFlags) : AppState × Option (String × List String × Bool) × List Effect :=
  if flags.execInXterm then
    if containsSub (xtermCmd env) "%C" then
      if flags.tempFile then
        (s, some ((xtermCmd env).replace "%C" command, [], false), [])
      else
        let t := createTempScriptFile env s command true
        match t.path with
        | none => (t.app, none, t.effects)
        | some f => (t.app, some ((xtermCmd env).replace "%C" f, [f], false), t.effects)
    else if containsSub (xtermCmd env) "%W" then
      let t := createTempScriptFile env s (command ++ "\nsleep 86400\n") true
      match t.path with
      | none => (t.app, none, t.effects)
      | some f => (t.app, some ((xtermCmd env).replace "%W" f, [f], false), t.effects)
    else if containsSub (xtermCmd env) "%w" then
      (s, some ((xtermCmd env).replace "%w"
        (env.quoteFn (command ++ "; sleep 86400")), [], false), [])
    else
      if containsSub (xtermCmd env) "%c" then
        (s, some ((xtermCmd env).replace "%c" (env.quoteFn command), [], false), [])
      else
        (s, some ((xtermCmd env) ++ env.quoteFn command, [], false), [])
  else
    (s, some (command, [], true), [])

/-- KAlarmApp::doShellCommand (kalarmapp.cpp lines 1656-1749): build the
final shell invocation per flags, optionally set up a logging sub-process,
create the tracked ProcData record and start the process.  On launch failure
the record is discarded and an error window shown. -/
def doShellCommand (env : Env) (s : AppState) (command : String)
    (event : KAEvent) (alarm : Option KAAlarm) (flags : ProcFlags) : ShellResult :=
  let b := buildCommandLine env s command flags
  match b.2.1 with
  | none => ⟨b.1, none, b.2.2⟩
  | some built =>
      let cmd := built.1
      let extraTemps := built.2.1
      let allOutput := built.2.2
      let s := b.1
      let procId := s.nextProcId
      let useLog := allOutput = true ∧ event.logFile ≠ ""
      let logProc : Option Nat := if useLog then some (s.nextProcId + 1) else none
      let logEffs : List Effect :=
        if useLog then [Effect.startLogProcess (s.nextProcId + 1) event.logFile] else []
      let tempFiles := (if flags.tempFile then [command] else []) ++ extraTemps
      let pd : ProcData :=
        { process := procId, logProcess := logProc, event := event, alarm := alarm
          messageBoxParent := false, flags := flags, tempFiles := tempFiles }
      let s := { s with tracker := s.tracker ++ [pd]
                        nextProcId := s.nextProcId + (if useLog then 2 else 1) }
      if env.procStartOk procId then
        ⟨s, some procId, b.2.2 ++ logEffs ++ [Effect.startProcess procId cmd]⟩
      else
        -- error executing command: report it and discard the record
        let s := { s with tracker := s.tracker.filter (fun q => ¬(q.process = procId)) }
        ⟨s, none, b.2.2 ++ logEffs ++ commandErrorMsg flags⟩

/-- result of execAlarm: state, the mutated event, trace, and whether the
result was non-null. -/
structure ExecResult where
  app : AppState
  event : KAEvent
  effects : List Effect
  ok : Bool

/-- the display portion of execAlarm's MESSAGE/FILE branch (kalarmapp.cpp
lines 1575-1595), entered directly or — after a failed pre-display command —
as the fallthrough that displays the message even though the command
failed.  `win` is the message window found for the event at entry. -/
def execAlarmDisplay (s : AppState) (event : KAEvent) (alarm : KAAlarm)
    (reschedule allowDefer : Bool) (win : Option MessageWinInfo)
    (preEffs : List Effect) : ExecResult :=
  if event.enabled = false then
    -- event is disabled: close its window
    let s := { s with displays :=
      s.displays.filter (fun w => ¬(w.eventId = event.id)) }
    ⟨s, event, preEffs ++ [Effect.deleteMessageWin event.id], true⟩
  else
    match win with
    | none =>
        -- there is no message for this event yet: create one
        let s := { s with displays :=
          s.displays.filter (fun w => ¬(w.eventId = event.id)) ++
            [{ eventId := event.id, hasDefer := allowDefer
               alarmTypeReminder := alarm.atype.reminderP }] }
        ⟨s, event,
          preEffs ++ [Effect.createMessageWin event.id (¬reschedule) (¬allowDefer)], true⟩
    | some w =>
        if (w.hasDefer = false ∧ alarm.atype.repeatAtLoginP = false) ∨
            (w.alarmTypeReminder = true ∧ alarm.atype.reminderP = false) then
          -- a repeat-at-login message with no Defer button, or a caption
          -- change from Reminder to Message: replace the window
          let s := { s with displays :=
            s.displays.filter (fun w => ¬(w.eventId = event.id)) ++
              [{ eventId := event.id, hasDefer := allowDefer
                 alarmTypeReminder := alarm.atype.reminderP }] }
          ⟨s, event,
            preEffs ++ [Effect.deleteMessageWin event.id,
              Effect.createMessageWin event.id (¬reschedule) (¬allowDefer)], true⟩
        else
          -- raise the existing window and replay any sound
          ⟨s, event, preEffs ++ [Effect.repeatMessageWin event.id], true⟩

/-- the tail of execAlarm's COMMAND and EMAIL branches: reschedule the alarm
when requested (kalarmapp.cpp lines 1621-1622 and 1640-1641). -/
def execAlarmFinish (env : Env) (s : AppState) (event : KAEvent) (alarm : KAAlarm)
    (reschedule : Bool) (effs : List Effect) (ok : Bool) : ExecResult :=
  if reschedule then
    let r := rescheduleAlarm env s event alarm true
    ⟨r.app, r.event, effs ++ r.effects, ok⟩
  else ⟨s, event, effs, ok⟩

/-- the body of KAlarmApp::execAlarm after the entry trace record. -/
def execAlarmInner (env : Env) (s : AppState) (event : KAEvent) (alarm : KAAlarm)
    (reschedule allowDefer noPreAction : Bool) : ExecResult :=
  if event.enabled = false then
    -- the event is disabled
    if reschedule then
      let r := rescheduleAlarm env s event alarm true
      ⟨r.app, r.event, r.effects, false⟩
    else ⟨s, event, [], false⟩
  else
    let event := event.setArchive
    match alarm.action with
    | .message | .file =>
        -- display a message or file, provided that the same event is not
        -- already being displayed
        let win := s.displays.find? (fun w => decide (w.eventId = event.id))
        if win = none ∧ noPreAction = false ∧ event.preAction ≠ "" ∧
            env.shellAuthorised = true then
          -- execute the pre-display command first
          let flags : ProcFlags :=
            { ProcFlags.none with preAction := true, reschedule := reschedule
                                  allowDefer := allowDefer }
          let r := doShellCommand env s event.preAction event (some alarm) flags
          match r.proc with
          | some _ =>
              -- display the message after the command completes
              ⟨r.app, event, r.effects, true⟩
          | none =>
              -- error executing the command: display the message anyway
              execAlarmDisplay r.app event alarm reschedule allowDefer win r.effects
        else
          execAlarmDisplay s event alarm reschedule allowDefer win []
    | .command =>
        let flags : ProcFlags := { ProcFlags.none with execInXterm := event.cmdXterm }
        if event.cmdScript then
          -- store the command script in a temporary file for execution
          let t := createTempScriptFile env s event.cleanText false
          match t.path with
          | none =>
              execAlarmFinish env t.app event alarm reschedule
                (t.effects ++ [Effect.errorMessageWin "Error creating temporary script file"])
                false
          | some tmpfile =>
              let r := doShellCommand env t.app tmpfile event (some alarm)
                { flags with tempFile := true }
              execAlarmFinish env r.app event alarm reschedule
                (t.effects ++ r.effects) r.proc.isSome
        else
          let r := doShellCommand env s event.cleanText event (some alarm) flags
          execAlarmFinish env r.app event alarm reschedule r.effects r.proc.isSome
    | .email =>
        let effs :=
          [Effect.sendEmail event.id (reschedule ∨ allowDefer)] ++
            (if env.mailErrors event.id then [Effect.errorMessageWin "email error"] else [])
        execAlarmFinish env s event alarm reschedule effs (env.mailSendOk event.id)

/-- KAlarmApp::execAlarm (kalarmapp.cpp lines 1545-1648): execute an alarm by
displaying its message or file, or executing its command.  The head of the
trace records the invocation and its arguments. -/
def execAlarm (env : Env) (s : AppState) (event : KAEvent) (alarm : KAAlarm)
    (reschedule allowDefer noPreAction : Bool) : ExecResult :=
  let r := execAlarmInner env s event alarm reschedule allowDefer noPreAction
  ⟨r.app, r.event,
    Effect.execAlarmCall event.id alarm.atype reschedule allowDefer noPreAction :: r.effects,
    r.ok⟩

/-- the loop state of handleEvent's alarm scan (kalarmapp.cpp lines
1237-1399): the application state and event (both mutated by in-loop
cancels/reschedules), the accumulated trace, the deferral reference time of
the last repeat occurrence (`repeatDT`, none while invalid), the
calendar-needs-update flag, and the alarm selected for execution (none while
`alarmToExecuteValid` is false). -/
structure ScanState where
  app : AppState
  event : KAEvent
  effects : List Effect
  repeatDT : Option DateTime
  updateCalAndDisplay : Bool
  alarmToExecute : Option KAAlarm

/-- one iteration of handleEvent's alarm scan (kalarmapp.cpp lines
1244-1399). -/
def handleAlarm (env : Env) (s : ScanState) (alarm : KAAlarm) : ScanState :=
  -- a deferral of a repeated alarm later than the last occurrence of the
  -- main alarm supersedes any alarm already chosen
  let supersede : Bool :=
    alarm.atype.deferredP && (s.event.repeatCount != 0) &&
      (match s.repeatDT with
       | some rdt => decide (rdt.secs < alarm.dateTime.secs)
       | none => false)
  let s :=
    if supersede then
      { s with alarmToExecute := none, updateCalAndDisplay := false }
    else s
  -- check if the alarm is due yet
  let secs := alarm.dateTime.secsTo env
  if secs < 0 ∧
      (alarm.dateTime.clockTime = false ∨
       env.now + env.clockOffset < alarm.dateTime.secs) then
    -- this alarm is definitely not due yet
    s
  else if alarm.atype.repeatAtLoginP = true ∧ secs < maxLateness env 1 then
    -- the at-login alarm has only just been set up: skip it
    s
  else if alarm.atype.repeatAtLoginP = true ∧ s.alarmToExecute.isSome then
    -- the main alarm is already being displayed: skip the at-login alarm
    s
  else
    -- for an at-login display alarm, stamp the time to be shown to now
    let alarm :=
      if alarm.atype.repeatAtLoginP then
        { alarm with dateTime := DateTime.fromNow env }
      else alarm
    -- a main alarm with a simple repetition: adjust its time to the
    -- correct repetition
    let adj : Option DateTime × KAAlarm × Int :=
      if s.event.repeatCount ≠ 0 ∧ alarm.atype = .main then
        let p := s.event.prevOcc (env.now + 1)
        if p.1.isRepeat then
          match p.2 with
          | some rdt => (p.2, { alarm with dateTime := rdt }, rdt.secsTo env)
          | none => (p.2, alarm, secs)
        else (p.2, alarm, secs)
      else (s.repeatDT, alarm, secs)
    let s := { s with repeatDT := adj.1 }
    let alarm := adj.2.1
    let secs := adj.2.2
    if alarm.lateCancel ≠ 0 then
      -- the alarm is due, and it is to be cancelled if too late
      let lateCancelRes : Bool × Bool :=   -- (late, cancel)
        if alarm.dateTime.dateOnly then
          -- the alarm has no time: cancel if its date is too far past
          let maxlate := alarm.lateCancel / 1440
          let limit := alarm.dateTime.secs + (maxlate + 1) * 86400
          if env.nowIn alarm.dateTime.clockTime ≥ limit then
            -- find the last previous occurrence of the alarm
            let p := s.event.prevOcc env.now
            match p.1.base with
            | .noOccurrence => (true, false)
            | _ =>
                let nxt := p.2.getD (DateTime.fromNow env)
                let limit := nxt.secs + (maxlate + 1) * 86400
                if env.nowIn alarm.dateTime.clockTime ≥ limit then
                  if (p.1.base = .lastRecurrence ∧ p.1.isRepeat = false) ∨
                      (p.1.base = .firstOrOnly ∧ p.1.isRepeat = false ∧
                       s.event.recurs = false) then
                    (false, true)
                  else (true, false)
                else (false, false)
          else (false, false)
        else
          -- the alarm is timed: allow the permitted amount of lateness
          let maxlate := maxLateness env alarm.lateCancel
          if maxlate < secs then
            -- find the most recent occurrence of the alarm
            let p := s.event.prevOcc env.now
            match p.1.base with
            | .noOccurrence => (true, false)
            | _ =>
                let nxt := p.2.getD (DateTime.fromNow env)
                if maxlate < nxt.secsTo env then
                  if (p.1.base = .lastRecurrence ∧ p.1.isRepeat = false) ∨
                      (p.1.base = .firstOrOnly ∧ p.1.isRepeat = false ∧
                       s.event.recurs = false) then
                    (false, true)
                  else (true, false)
                else (false, false)
          else (false, false)
      if lateCancelRes.2 then
        -- all recurrences are finished: cancel the event
        let event := s.event.setArchive
        let r := cancelAlarm s.app event alarm.atype false
        { s with app := r.app, event := r.event
                 effects := s.effects ++ r.effects, updateCalAndDisplay := true }
      else if lateCancelRes.1 then
        -- the latest repetition was too long ago: schedule the next one
        let r := rescheduleAlarm env s.app s.event alarm false
        { s with app := r.app, event := r.event
                 effects := s.effects ++ r.effects, updateCalAndDisplay := true }
      else if s.alarmToExecute = none then
        { s with alarmToExecute := some alarm }
      else s
    else if s.alarmToExecute = none then
      -- note the alarm to be displayed: only trigger one alarm per event
      { s with alarmToExecute := some alarm }
    else
      -- a later due alarm in the same pass: skip
      s

/-- the full alarm scan of handleEvent, iterating the event's alarms in
enumeration order (main alarm first). -/
def handleEventScan (env : Env) (s : AppState) (event : KAEvent)
    : ScanState :=
  event.alarms.foldl (handleAlarm env)
    { app := s, event := event, effects := [], repeatDT := none
      updateCalAndDisplay := false, alarmToExecute := none }

/-- result of handleEvent: state, trace, and the boolean reply. -/
structure HEResult where
  app : AppState
  effects : List Effect
  ok : Bool

/-- KAlarmApp::handleEvent (kalarmapp.cpp lines 1217-1428): either display
the event and delete it if it has no outstanding repetitions, delete it, or
reschedule it for its next repetition. -/
def handleEvent (env : Env) (s : AppState) (eventID : String)
    (function : EventFunc) : HEResult :=
  match Calendar.find s.calendar eventID with
  | none =>
      -- event ID not found: acknowledge to the daemon, fail
      ⟨s, [Effect.eventHandled eventID], false⟩
  | some event =>
      match function with
      | .cancel =>
          let r := KAlarm.deleteEvent s event true
          ⟨r.1, r.2, true⟩
      | .trigger | .handle =>
          let sc := handleEventScan env s event
          match sc.alarmToExecute with
          | some a =>
              -- execute the chosen alarm last, after any rescheduling, so
              -- the updated event is only saved once
              let r := execAlarm env sc.app sc.event a true
                (!a.atype.repeatAtLoginP) false
              ⟨r.app, sc.effects ++ r.effects, true⟩
          | none =>
              let forced : AppState × List Effect :=
                if function = .trigger then
                  -- execute the event regardless of whether it is due
                  let alarm := sc.event.firstAlarm
                  if alarm.valid then
                    let r := execAlarm env sc.app sc.event alarm false true false
                    (r.app, r.effects)
                  else (sc.app, [])
                else (sc.app, [])
              if sc.updateCalAndDisplay then
                let r := KAlarm.updateEvent forced.1 sc.event
                ⟨r.1, sc.effects ++ forced.2 ++ r.2, true⟩
              else if function ≠ .trigger then
                -- no action: tell the daemon the event was handled
                ⟨forced.1, sc.effects ++ forced.2 ++ [Effect.eventHandled eventID], true⟩
              else
                ⟨forced.1, sc.effects ++ forced.2, true⟩

/-- remove the first tracked record with the given process handle
(mCommandProcesses.removeAt at the found index). -/
def removeFirstProc (procId : Nat) : List ProcData → List ProcData
  | [] => []
  | pd :: rest =>
      if pd.process = procId then rest else pd :: removeFirstProc procId rest

/-- the search loop of slotCommandExited over the tracker (kalarmapp.cpp
lines 1815-1851): find the record of the exited process, terminate its
logging sub-process, report an abnormal exit, re-invoke execAlarm for a
pre-action gate, and delete the record (removing its temporary files). -/
def slotCommandExitedFind (env : Env) (s : AppState) (procId : Nat)
    (normalExit : Bool) : List ProcData → AppState × List Effect
  | [] => (s, [])
  | pd :: rest =>
      if pd.process = procId then
        -- found the command
        let logEffs :=
          match pd.logProcess with
          | some lp => [Effect.stdinExit lp]
          | none => []
        let errEffs :=
          if normalExit = false then
            if pd.messageBoxParent then [Effect.messageBoxError]
            else commandErrorMsg pd.flags
          else []
        let preStep : AppState × List Effect :=
          if pd.flags.preAction then
            match pd.alarm with
            | some a =>
                let r := execAlarm env s pd.event a pd.flags.reschedule
                  pd.flags.allowDefer true
                (r.app, r.effects)
            | none => (s, [])
          else (s, [])
        let s := { preStep.1 with tracker := removeFirstProc procId preStep.1.tracker }
        (s, logEffs ++ errEffs ++ preStep.2 ++ pd.tempFiles.map Effect.removeTempFile)
      else
        slotCommandExitedFind env s procId normalExit rest

/-- KAlarmApp::slotCommandExited (kalarmapp.cpp lines 1811-1856): called when
a command alarm's execution completes. -/
def slotCommandExited (env : Env) (s : AppState) (procId : Nat)
    (normalExit : Bool) : AppState × List Effect :=
  let r := slotCommandExitedFind env s procId normalExit s.tracker
  -- if there are now no executing shell commands, quit if a quit was queued
  let quitEffs :=
    if r.1.mPendingQuit = true ∧ r.1.tracker.isEmpty = true then
      [Effect.quitIfEff r.1.mPendingQuitCode]
    else []
  (r.1, r.2 ++ quitEffs)

/-- processing of one queued request by the drain loop (kalarmapp.cpp lines
898-916). -/
def processQEntry (env : Env) (s : AppState) : DcopQEntry → AppState × List Effect
  | .newEvent event function =>
      match function with
      | .trigger =>
          let r := execAlarm env s event event.firstAlarm false true false
          (r.app, r.effects)
      | .handle => KAlarm.addEvent s event
      | .cancel => (s, [])
  | .byId eventId function =>
      let r := handleEvent env s eventId function
      (r.app, r.effects)

/-- the drain loop of processQueue: pop entries strictly in order, process
each, then dequeue it.  (The engine's callees never touch the queue, so the
loop is recursion over the queued entries.) -/
def drainList (env : Env) (s : AppState) : List DcopQEntry → AppState × List Effect
  | [] => (s, [])
  | entry :: rest =>
      let r := processQEntry env s entry
      let s' := { r.1 with mDcopQueue := rest }
      let r' := drainList env s' rest
      (r'.1, r.2 ++ r'.2)

/-- KAlarmApp::processQueue (kalarmapp.cpp lines 885-928): the main
processing loop.  All calendar-mutating operations are funnelled through it;
it is a no-op while a drain is already in progress or before
initialisation. -/
def processQueue (env : Env) (s : AppState) : AppState × List Effect :=
  if s.mInitialised = true ∧ s.mProcessingQueue = false then
    let s1 := { s with mProcessingQueue := true }
    -- reset the alarm daemon if it's been queued
    let r := drainList env s1 s1.mDcopQueue
    -- purge the archived alarms resources if it's time to do so
    let quitEffs :=
      if r.1.mPendingQuit then [Effect.quitIfEff r.1.mPendingQuitCode] else []
    ({ r.1 with mProcessingQueue := false },
     [Effect.resetDaemonIfQueued] ++ r.2 ++ [Effect.purgeIfQueued] ++ quitEffs)
  else
    (s, [])

/-- KAlarmApp::dcopHandleEvent (kalarmapp.cpp lines 1200-1207): queue a
daemon notification and schedule a drain. -/
def dcopHandleEvent (s : AppState) (eventID : String) (function : EventFunc) :
    AppState × List Effect × Bool :=
  let s := { s with mDcopQueue := s.mDcopQueue ++ [DcopQEntry.byId eventID function] }
  (s, if s.mInitialised then [Effect.singleShotProcessQueue] else [], true)

/-- result of scheduleEvent: state, trace and the boolean reply. -/
structure SEResult where
  app : AppState
  effects : List Effect
  ok : Bool

/-- KAlarmApp::scheduleEvent (kalarmapp.cpp lines 1141-1192): schedule a new
alarm.  The KAEvent constructed from the scheduling parameters is modelled
from the spec's data model (alarmevent.cpp is not under src/): a single main
alarm carrying the action, text, rounded date-time and late-cancel threshold,
with the recurrence machinery supplied as oracle parameters; parameters
governing colours, fonts, audio and email payload do not affect the engine
and are omitted. -/
def scheduleEvent (env : Env) (s : AppState) (action : AlarmAction)
    (text : String) (dateTime : DateTime) (lateCancel : Int) (recurs : Bool)
    (prevOcc : Int → OccurType × Option DateTime)
    (nextOcc : Int → Bool → OccurType × Option DateTime)
    (repeatInterval repeatCount : Int) : SEResult :=
  if dateTime.valid = false then
    ⟨s, [], false⟩
  else if lateCancel ≠ 0 ∧
      dateTime.secs < env.nowIn dateTime.clockTime - maxLateness env lateCancel then
    -- the alarm time was already archived too long ago
    ⟨s, [], true⟩
  else
    -- round down to the nearest minute to avoid scheduling being messed up
    let alarmTime :=
      if dateTime.dateOnly = false then
        { dateTime with secs := dateTime.secs - dateTime.secs % 60 }
      else dateTime
    let mainAlarm : KAAlarm :=
      { atype := .main, action := action, dateTime := alarmTime
        lateCancel := lateCancel, valid := true }
    let event : KAEvent :=
      { id := "", alarms := [mainAlarm]
        repeatCount := (repeatCount - 1).toNat, recurs := recurs
        enabled := true, toBeArchived := false, displaying := false
        updated := false, cancelledDeferral := false
        mainEndRepeatTime :=
          { alarmTime with secs := alarmTime.secs + repeatInterval * 60 * (repeatCount - 1) }
        prevOcc := prevOcc, nextOcc := nextOcc
        preAction := "", postAction := "", cleanText := text, logFile := ""
        cmdXterm := false, cmdScript := false }
    if alarmTime.secs ≤ env.nowIn alarmTime.clockTime then
      -- the alarm is due for display already: execute it once without
      -- adding it to the calendar file
      let fire : AppState × List Effect :=
        if s.mInitialised = false then
          ({ s with mDcopQueue := s.mDcopQueue ++ [DcopQEntry.newEvent event .trigger] }, [])
        else
          let r := execAlarm env s event event.firstAlarm false true false
          (r.app, r.effects)
      if event.recurs = false then ⟨fire.1, fire.2, true⟩
      else
        let n := event.setNextOccurrenceE env.now true
        if n.1 = { base := .noOccurrence, isRepeat := false } then
          ⟨fire.1, fire.2, true⟩
        else
          -- it has recurrences in the future: queue it for insertion
          let s2 := { fire.1 with mDcopQueue :=
            fire.1.mDcopQueue ++ [DcopQEntry.newEvent n.2 .handle] }
          ⟨s2, fire.2 ++ (if s2.mInitialised then [Effect.singleShotProcessQueue] else []),
            true⟩
    else
      -- queue the alarm for insertion into the calendar file
      let s2 := { s with mDcopQueue := s.mDcopQueue ++ [DcopQEntry.newEvent event .handle] }
      ⟨s2, (if s2.mInitialised then [Effect.singleShotProcessQueue] else []), true⟩

/-! ### Concrete fixtures used by the witness theorems -/

/-- a concrete environment for witnesses. -/
def envW : Env :=
  { now := 100000, clockOffset := 3600, daemonCheckInterval := 60
    cmdXTermCommand := "", programName := "kalarm", shellAuthorised := false
    quoteFn := fun x => x, tempFile := fun _ => none
    procStartOk := fun _ => false, mailSendOk := fun _ => false
    mailErrors := fun _ => false }

/-- a concrete application state for witnesses. -/
def appW : AppState :=
  { mInitialised := true, mProcessingQueue := true, mDcopQueue := []
    mPendingQuit := false, mPendingQuitCode := 0, calendar := []
    displays := [], tracker := [], nextProcId := 0, nextTempId := 0 }

/-- a concrete timed date-time 1000 seconds before `envW.now`. -/
def dtPastW : DateTime :=
  { secs := 99000, dateOnly := false, clockTime := false, valid := true }

/-- a concrete main alarm due at `dtPastW` with lateCancel = 5 minutes. -/
def alarmW : KAAlarm :=
  { atype := .main, action := .message, dateTime := dtPastW
    lateCancel := 5, valid := true }

/-- a concrete one-alarm, non-recurring event owning `alarmW`. -/
def eventW : KAEvent :=
  { id := "ev1", alarms := [alarmW], repeatCount := 0, recurs := false
    enabled := true, toBeArchived := false, displaying := false
    updated := false, cancelledDeferral := false
    mainEndRepeatTime := dtPastW
    prevOcc := fun _ => (⟨.firstOrOnly, false⟩, some dtPastW)
    nextOcc := fun _ _ => (⟨.noOccurrence, false⟩, none)
    preAction := "", postAction := "", cleanText := "hello", logFile := ""
    cmdXterm := false, cmdScript := false }

/-- a concrete at-login alarm due 10 seconds before `envW.now`. -/
def alarmLoginW : KAAlarm :=
  { atype := .atLogin, action := .message
    dateTime := { secs := 99990, dateOnly := false, clockTime := false, valid := true }
    lateCancel := 0, valid := true }

/-- a concrete event owning only `alarmLoginW`. -/
def eventLoginW : KAEvent :=
  { id := "login1", alarms := [alarmLoginW], repeatCount := 0, recurs := false
    enabled := true, toBeArchived := false, displaying := false
    updated := false, cancelledDeferral := false
    mainEndRepeatTime := dtPastW
    prevOcc := fun _ => (⟨.firstOrOnly, false⟩, none)
    nextOcc := fun _ _ => (⟨.noOccurrence, false⟩, none)
    preAction := "", postAction := "", cleanText := "login", logFile := ""
    cmdXterm := false, cmdScript := false }

/-- an application state whose calendar holds `eventLoginW`. -/
def appLoginW : AppState :=
  { appW with mProcessingQueue := false, calendar := [eventLoginW] }

/-- a concrete never-cancel main alarm due 1000 seconds before `envW.now`. -/
def alarmC4W : KAAlarm :=
  { atype := .main, action := .message, dateTime := dtPastW
    lateCancel := 0, valid := true }

/-- a concrete event owning only `alarmC4W`. -/
def eventC4W : KAEvent :=
  { eventLoginW with id := "c4", alarms := [alarmC4W] }

/-- an application state whose calendar holds `eventC4W`. -/
def appC4W : AppState :=
  { appW with mProcessingQueue := false, calendar := [eventC4W] }

/-- an application state whose calendar holds `eventW`. -/
def appC2W : AppState :=
  { appW with mProcessingQueue := false, calendar := [eventW] }

/-- a concrete main alarm due only in the future (not yet due). -/
def alarmC7W : KAAlarm :=
  { atype := .main, action := .message
    dateTime := { secs := 200000, dateOnly := false, clockTime := false, valid := true }
    lateCancel := 0, valid := true }

/-- a concrete event owning only the not-yet-due `alarmC7W`. -/
def eventC7W : KAEvent :=
  { eventLoginW with id := "c7", alarms := [alarmC7W] }

/-- an application state whose calendar holds `eventC7W`. -/
def appC7W : AppState :=
  { appW with mProcessingQueue := false, calendar := [eventC7W] }

/-- a concrete PRE_ACTION command-execution record for process 7. -/
def pdC9W : ProcData :=
  { process := 7, logProcess := none, event := eventC4W, alarm := some alarmC4W
    messageBoxParent := false
    flags := { ProcFlags.none with preAction := true, reschedule := true
                                   allowDefer := true }
    tempFiles := ["/tmp/kalarm1"] }

/-- an application state whose tracker holds only `pdC9W`. -/
def appC9W : AppState :=
  { appW with mProcessingQueue := false, tracker := [pdC9W] }

/-! ### Claim theorems -/

/-- Claim C1: in every application state in which a queue drain is already in
progress (the processing flag is set) or the engine is not yet initialised,
processQueue is a no-op: it dequeues no entries, mutates no state (calendar
included) and emits no effects, so the pending queue is unchanged. -/
theorem processQueue_reentrant_noop (env : Env) (s : AppState)
    (h : s.mProcessingQueue = true ∨ s.mInitialised = false) :
    processQueue env s = (s, []) := by
  unfold processQueue
  rw [if_neg]
  rintro ⟨h1, h2⟩
  rcases h with h | h
  · rw [h] at h2; exact absurd h2 (by simp)
  · rw [h] at h1; exact absurd h1 (by simp)

/-- witness for C1: a concrete mid-drain state on which processQueue changes
nothing. -/
theorem processQueue_reentrant_noop_witness :
    (appW.mProcessingQueue = true ∨ appW.mInitialised = false) ∧
      processQueue envW appW = (appW, []) :=
  ⟨Or.inl rfl, processQueue_reentrant_noop envW appW (Or.inl rfl)⟩

/-- Claim C3: for every lateCancel >= 1, maxLateness equals the daemon check
interval plus the 5-second leeway plus (lateCancel - 1) * 60 seconds, and
maxLateness 0 equals the daemon check interval plus 5 seconds.  (The
function is a pure Lean function of its arguments: purity is intrinsic to
the embedding.) -/
theorem maxLateness_formula (env : Env) (lateCancel : Int) (h : 1 ≤ lateCancel) :
    maxLateness env lateCancel = env.daemonCheckInterval + 5 + (lateCancel - 1) * 60 ∧
    maxLateness env 0 = env.daemonCheckInterval + 5 := by
  constructor
  · simp only [maxLateness]
    rw [if_pos h]
  · simp [maxLateness]

/-- witness for C3 at lateCancel = 5 and a 60-second check interval. -/
theorem maxLateness_formula_witness :
    1 ≤ (5 : Int) ∧
      (maxLateness envW 5 = envW.daemonCheckInterval + 5 + (5 - 1) * 60 ∧
       maxLateness envW 0 = envW.daemonCheckInterval + 5) :=
  ⟨by norm_num, maxLateness_formula envW 5 (by norm_num)⟩

/-- Claim C5: for every event id not present in the calendar store and every
function mode, handleEvent acknowledges the event to the daemon notifier via
eventHandled, returns false, and mutates no state. -/
theorem handleEvent_not_found (env : Env) (s : AppState) (eventID : String)
    (function : EventFunc) (h : Calendar.find s.calendar eventID = none) :
    handleEvent env s eventID function = ⟨s, [Effect.eventHandled eventID], false⟩ := by
  unfold handleEvent
  rw [h]

/-- witness for C5: an id that is absent from an empty calendar store. -/
theorem handleEvent_not_found_witness :
    Calendar.find appW.calendar "missing" = none ∧
      handleEvent envW appW "missing" .handle =
        ⟨appW, [Effect.eventHandled "missing"], false⟩ :=
  ⟨rfl, handleEvent_not_found envW appW "missing" .handle rfl⟩

/-- Claim C8: after cancelAlarm removes the named alarm instance, an event
left with zero alarm instances is deleted from storage entirely; otherwise
it is persisted when updateNow is set and untouched when it is not — so a
live event always retains at least one alarm instance. -/
theorem cancelAlarm_invariant (s : AppState) (event : KAEvent)
    (atype : AlarmType) (updateNow : Bool) :
    ((event.cancelCancelledDeferralE.removeExpiredAlarm atype).alarmCount = 0 →
       (cancelAlarm s event atype updateNow).app.calendar =
         Calendar.remove s.calendar event.id ∧
       Effect.deleteEvent event.id false ∈ (cancelAlarm s event atype updateNow).effects) ∧
    ((event.cancelCancelledDeferralE.removeExpiredAlarm atype).alarmCount ≠ 0 →
      updateNow = true →
       (cancelAlarm s event atype updateNow).app.calendar =
         Calendar.update s.calendar (event.cancelCancelledDeferralE.removeExpiredAlarm atype) ∧
       Effect.updateEvent event.id ∈ (cancelAlarm s event atype updateNow).effects) ∧
    ((event.cancelCancelledDeferralE.removeExpiredAlarm atype).alarmCount ≠ 0 →
      updateNow = false →
       (cancelAlarm s event atype updateNow).app = s) := by
  refine ⟨?_, ?_, ?_⟩
  · intro h0
    unfold cancelAlarm
    rw [if_pos h0]
    refine ⟨rfl, ?_⟩
    simp only [KAlarm.deleteEvent, List.mem_append, List.mem_singleton]
    exact Or.inr rfl
  · intro h0 hu
    unfold cancelAlarm
    rw [if_neg h0, if_pos hu]
    refine ⟨rfl, ?_⟩
    simp only [KAlarm.updateEvent, List.mem_append, List.mem_singleton]
    exact Or.inr rfl
  · intro h0 hu
    unfold cancelAlarm
    rw [if_neg h0, if_neg (by simp [hu])]

/-- witness for C8: cancelling the only (main) alarm of a one-alarm event
deletes the event from storage. -/
theorem cancelAlarm_invariant_witness :
    ((eventW.cancelCancelledDeferralE.removeExpiredAlarm .main).alarmCount = 0 →
       (cancelAlarm appW eventW .main false).app.calendar =
         Calendar.remove appW.calendar eventW.id ∧
       Effect.deleteEvent eventW.id false ∈ (cancelAlarm appW eventW .main false).effects) ∧
    ((eventW.cancelCancelledDeferralE.removeExpiredAlarm .main).alarmCount = 0) :=
  ⟨(cancelAlarm_invariant appW eventW .main false).1, rfl⟩

/-- Claim C10: a valid scheduling request with lateCancel > 0 whose date-time
is more than maxLateness(lateCancel) seconds in the past is silently
discarded: scheduleEvent returns true while executing nothing, enqueueing
nothing and changing no state. -/
theorem scheduleEvent_expired_discarded (env : Env) (s : AppState)
    (action : AlarmAction) (text : String) (dateTime : DateTime)
    (lateCancel : Int) (recurs : Bool)
    (prevOcc : Int → OccurType × Option DateTime)
    (nextOcc : Int → Bool → OccurType × Option DateTime)
    (repeatInterval repeatCount : Int)
    (hv : dateTime.valid = true)
    (hlc : 0 < lateCancel)
    (hlate : dateTime.secs < env.nowIn dateTime.clockTime - maxLateness env lateCancel) :
    scheduleEvent env s action text dateTime lateCancel recurs prevOcc nextOcc
        repeatInterval repeatCount = ⟨s, [], true⟩ := by
  unfold scheduleEvent
  rw [if_neg (by simp [hv]), if_pos ⟨by omega, hlate⟩]

/-- witness for C10: an alarm due 1000 seconds ago with lateCancel = 1 and a
65-second lateness allowance is discarded with reply true. -/
theorem scheduleEvent_expired_discarded_witness :
    (dtPastW.valid = true ∧ 0 < (1 : Int) ∧
      dtPastW.secs < envW.nowIn dtPastW.clockTime - maxLateness envW 1) ∧
    scheduleEvent envW appW .message "hi" dtPastW 1 false
        (fun _ => (⟨.firstOrOnly, false⟩, none)) (fun _ _ => (⟨.noOccurrence, false⟩, none))
        0 0 = ⟨appW, [], true⟩ :=
  ⟨⟨rfl, by norm_num, by decide⟩,
   scheduleEvent_expired_discarded envW appW .message "hi" dtPastW 1 false
     (fun _ => (⟨.firstOrOnly, false⟩, none)) (fun _ _ => (⟨.noOccurrence, false⟩, none))
     0 0 rfl (by norm_num) (by decide)⟩

/-- an at-login alarm less than maxLateness(1) seconds past due is skipped by
the scan iteration: the scan state is returned unchanged. -/
theorem handleAlarm_atLogin_skip (env : Env) (st : ScanState) (a : KAAlarm)
    (htype : a.atype = .atLogin)
    (h0 : 0 ≤ a.dateTime.secsTo env)
    (h1 : a.dateTime.secsTo env < maxLateness env 1) :
    handleAlarm env st a = st := by
  unfold handleAlarm
  rw [htype]
  have hdue : ¬(a.dateTime.secsTo env < 0 ∧
      (a.dateTime.clockTime = false ∨ env.now + env.clockOffset < a.dateTime.secs)) :=
    fun hc => absurd hc.1 (not_lt.mpr h0)
  simp only [AlarmType.deferredP, AlarmType.repeatAtLoginP, Bool.false_and,
    Bool.false_eq_true, if_false, if_neg hdue, eq_self_iff_true, true_and,
    if_pos h1]

/-- Claim C6: an event whose single alarm is an at-login alarm due less than
maxLateness(1) seconds ago is skipped by handleEvent on this pass: no alarm
is selected or executed, no state changes, and the daemon is merely told the
event was handled. -/
theorem handleEvent_atLogin_skipped (env : Env) (s : AppState) (eventID : String)
    (event : KAEvent) (a : KAAlarm)
    (hfind : Calendar.find s.calendar eventID = some event)
    (halarms : event.alarms = [a])
    (htype : a.atype = .atLogin)
    (h0 : 0 ≤ a.dateTime.secsTo env)
    (h1 : a.dateTime.secsTo env < maxLateness env 1) :
    handleEvent env s eventID .handle = ⟨s, [Effect.eventHandled eventID], true⟩ := by
  have hscan : handleEventScan env s event =
      { app := s, event := event, effects := [], repeatDT := none
        updateCalAndDisplay := false, alarmToExecute := none } := by
    unfold handleEventScan
    rw [halarms]
    simp only [List.foldl_cons, List.foldl_nil]
    exact handleAlarm_atLogin_skip env _ a htype h0 h1
  unfold handleEvent
  rw [hfind]
  simp only [hscan]
  rfl

/-- witness for C6: a concrete at-login alarm due 10 seconds ago with a
65-second maxLateness(1). -/
theorem handleEvent_atLogin_skipped_witness :
    (Calendar.find appLoginW.calendar "login1" = some eventLoginW ∧
      0 ≤ alarmLoginW.dateTime.secsTo envW ∧
      alarmLoginW.dateTime.secsTo envW < maxLateness envW 1) ∧
    handleEvent envW appLoginW "login1" .handle =
      ⟨appLoginW, [Effect.eventHandled "login1"], true⟩ :=
  ⟨⟨rfl, by decide, by decide⟩,
   handleEvent_atLogin_skipped envW appLoginW "login1" eventLoginW alarmLoginW
     rfl rfl rfl (by decide) (by decide)⟩

/-- a due main alarm without a late-cancel threshold, on an event without
simple repetition, is selected for execution by the scan iteration when no
alarm was selected yet. -/
theorem handleAlarm_main_select (env : Env) (st : ScanState) (a : KAAlarm)
    (htype : a.atype = .main)
    (h0 : 0 ≤ a.dateTime.secsTo env)
    (hlc : a.lateCancel = 0)
    (hrep : st.event.repeatCount = 0)
    (hsel : st.alarmToExecute = none) :
    handleAlarm env st a = { st with alarmToExecute := some a } := by
  have h0' : ¬ a.dateTime.secsTo env < 0 := not_lt.mpr h0
  simp [handleAlarm, htype, AlarmType.deferredP, AlarmType.repeatAtLoginP,
    hlc, hrep, hsel, h0']

/-- Claim C4: for an event with a single non-recurring MAIN alarm whose
late-cancel threshold is 0 (never cancel) and whose due time is in the past,
handleEvent selects that alarm and executes it despite its lateness: the
whole invocation reduces to the execAlarm call (with rescheduling and defer
allowed), whose trace head records the execution of the main alarm, and the
late-cancel branch contributes nothing. -/
theorem handleEvent_lateCancel_zero_executes (env : Env) (s : AppState)
    (eventID : String) (event : KAEvent) (a : KAAlarm)
    (hfind : Calendar.find s.calendar eventID = some event)
    (halarms : event.alarms = [a])
    (htype : a.atype = .main)
    (h0 : 0 ≤ a.dateTime.secsTo env)
    (hlc : a.lateCancel = 0)
    (hrep : event.repeatCount = 0) :
    handleEvent env s eventID .handle =
      ⟨(execAlarm env s event a true true false).app,
       (execAlarm env s event a true true false).effects, true⟩ ∧
    (execAlarm env s event a true true false).effects.head? =
      some (Effect.execAlarmCall event.id AlarmType.main true true false) := by
  have hscan : handleEventScan env s event =
      { app := s, event := event, effects := [], repeatDT := none
        updateCalAndDisplay := false, alarmToExecute := some a } := by
    unfold handleEventScan
    rw [halarms]
    simp only [List.foldl_cons, List.foldl_nil]
    exact handleAlarm_main_select env _ a htype h0 hlc hrep rfl
  constructor
  · unfold handleEvent
    rw [hfind]
    simp only [hscan]
    simp [htype, AlarmType.repeatAtLoginP]
  · simp [execAlarm, htype]

/-- witness for C4: a main alarm due 1000 seconds ago with lateCancel = 0 is
selected and executed. -/
theorem handleEvent_lateCancel_zero_executes_witness :
    (Calendar.find appC4W.calendar "c4" = some eventC4W ∧
      0 ≤ alarmC4W.dateTime.secsTo envW ∧ alarmC4W.lateCancel = 0 ∧
      eventC4W.repeatCount = 0) ∧
    (handleEvent envW appC4W "c4" .handle =
      ⟨(execAlarm envW appC4W eventC4W alarmC4W true true false).app,
       (execAlarm envW appC4W eventC4W alarmC4W true true false).effects, true⟩ ∧
     (execAlarm envW appC4W eventC4W alarmC4W true true false).effects.head? =
      some (Effect.execAlarmCall eventC4W.id AlarmType.main true true false)) :=
  ⟨⟨rfl, by decide, rfl, rfl⟩,
   handleEvent_lateCancel_zero_executes envW appC4W "c4" eventC4W alarmC4W
     rfl rfl rfl (by decide) rfl rfl⟩

/-- updating an event that was just removed from the calendar leaves the
calendar unchanged. -/
theorem update_remove_self (cal : Calendar) (e : KAEvent) (id : String)
    (h : e.id = id) :
    Calendar.update (Calendar.remove cal id) e = Calendar.remove cal id := by
  unfold Calendar.update Calendar.remove
  have hall : ∀ x ∈ List.filter (fun e => decide (¬(e.id = id))) cal,
      (if x.id = e.id then e else x) = x := by
    intro x hx
    rw [if_neg]
    intro hxe
    have hne : ¬ (x.id = id) := by simpa using (List.mem_filter.mp hx).2
    exact hne (h ▸ hxe)
  rw [List.map_congr_left hall, List.map_id']

/-- a timed main alarm with a late-cancel threshold, overdue by more than
maxLateness on a non-recurring, non-repeating event, hits the cancel branch
of the scan iteration: the event is archived and its alarm cancelled instead
of being selected for execution. -/
theorem handleAlarm_timed_late_cancel (env : Env) (st : ScanState) (a : KAAlarm)
    (htype : a.atype = .main)
    (htimed : a.dateTime.dateOnly = false)
    (hlc : 1 ≤ a.lateCancel)
    (hdci : 0 ≤ env.daemonCheckInterval)
    (hlate : maxLateness env a.lateCancel < a.dateTime.secsTo env)
    (hrep : st.event.repeatCount = 0)
    (hprev : st.event.prevOcc env.now = (⟨.firstOrOnly, false⟩, some a.dateTime))
    (hrecurs : st.event.recurs = false) :
    handleAlarm env st a =
      { st with
          app := (cancelAlarm st.app st.event.setArchive .main false).app
          event := (cancelAlarm st.app st.event.setArchive .main false).event
          effects := st.effects ++ (cancelAlarm st.app st.event.setArchive .main false).effects
          updateCalAndDisplay := true } := by
  have hml : 0 ≤ maxLateness env a.lateCancel := by
    simp only [maxLateness]
    rw [if_pos hlc]
    omega
  have h0' : ¬ a.dateTime.secsTo env < 0 := by omega
  have hlcne : a.lateCancel ≠ 0 := by omega
  simp [handleAlarm, htype, htimed, AlarmType.deferredP, AlarmType.repeatAtLoginP,
    hrep, hprev, hrecurs, h0', hlcne, hlate]

/-- Claim C2: an event with a single non-recurring MAIN alarm that is timed,
carries lateCancel >= 1, and is due more than maxLateness(lateCancel)
seconds before now, is not executed by handleEvent; instead the event is
archived, its alarm instance removed, and — no alarm instances remaining —
the event is deleted from storage.  (The trailing updateEvent acknowledges
the calendar refresh and no longer finds the event.) -/
theorem handleEvent_late_cancel_deletes (env : Env) (s : AppState)
    (eventID : String) (event : KAEvent) (a : KAAlarm)
    (hfind : Calendar.find s.calendar eventID = some event)
    (halarms : event.alarms = [a])
    (htype : a.atype = .main)
    (htimed : a.dateTime.dateOnly = false)
    (hlc : 1 ≤ a.lateCancel)
    (hdci : 0 ≤ env.daemonCheckInterval)
    (hlate : maxLateness env a.lateCancel < a.dateTime.secsTo env)
    (hrep : event.repeatCount = 0)
    (hprev : event.prevOcc env.now = (⟨.firstOrOnly, false⟩, some a.dateTime))
    (hrecurs : event.recurs = false)
    (hdisp : event.displaying = false) :
    handleEvent env s eventID .handle =
      ⟨{ s with calendar := Calendar.remove s.calendar eventID },
       [Effect.addArchivedEvent eventID, Effect.deleteEvent eventID false,
        Effect.updateEvent eventID], true⟩ := by
  have hid : event.id = eventID := by
    have hfind2 := hfind
    unfold Calendar.find at hfind2
    simpa using List.find?_some hfind2
  have hcan : cancelAlarm s event.setArchive .main false =
      ⟨{ s with calendar := Calendar.remove s.calendar event.id },
       (event.setArchive.cancelCancelledDeferralE).removeExpiredAlarm .main,
       [Effect.addArchivedEvent event.id, Effect.deleteEvent event.id false]⟩ := by
    have hcnt :
        ((event.setArchive.cancelCancelledDeferralE).removeExpiredAlarm .main).alarmCount
          = 0 := by
      simp [KAEvent.removeExpiredAlarm, KAEvent.alarmCount, KAEvent.setArchive,
        KAEvent.cancelCancelledDeferralE, halarms, htype]
    unfold cancelAlarm
    rw [if_pos hcnt]
    simp only [KAlarm.deleteEvent, KAlarm.addArchivedEvent, KAEvent.setArchive,
      KAEvent.cancelCancelledDeferralE, hdisp]
    rfl
  have hscan : handleEventScan env s event =
      { app := { s with calendar := Calendar.remove s.calendar event.id }
        event := (event.setArchive.cancelCancelledDeferralE).removeExpiredAlarm .main
        effects := [Effect.addArchivedEvent event.id, Effect.deleteEvent event.id false]
        repeatDT := none, updateCalAndDisplay := true, alarmToExecute := none } := by
    unfold handleEventScan
    rw [halarms]
    simp only [List.foldl_cons, List.foldl_nil]
    rw [handleAlarm_timed_late_cancel env _ a htype htimed hlc hdci hlate hrep hprev
      hrecurs]
    simp [hcan]
  have hupd : Calendar.update (Calendar.remove s.calendar event.id)
      ((event.setArchive.cancelCancelledDeferralE).removeExpiredAlarm .main) =
      Calendar.remove s.calendar event.id :=
    update_remove_self s.calendar _ event.id rfl
  rw [← hid] at hfind ⊢
  unfold handleEvent
  rw [hfind]
  simp only [hscan]
  simp [KAlarm.updateEvent, hupd]
  rfl

/-- witness for C2: the fixture event `eventW` (main alarm due 1000 seconds
ago, lateCancel = 5, allowance 305 seconds) is archived and deleted. -/
theorem handleEvent_late_cancel_deletes_witness :
    (Calendar.find appC2W.calendar "ev1" = some eventW ∧
      1 ≤ alarmW.lateCancel ∧
      maxLateness envW alarmW.lateCancel < alarmW.dateTime.secsTo envW) ∧
    handleEvent envW appC2W "ev1" .handle =
      ⟨{ appC2W with calendar := Calendar.remove appC2W.calendar "ev1" },
       [Effect.addArchivedEvent "ev1", Effect.deleteEvent "ev1" false,
        Effect.updateEvent "ev1"], true⟩ :=
  ⟨⟨rfl, by decide, by decide⟩,
   handleEvent_late_cancel_deletes envW appC2W "ev1" eventW alarmW
     rfl rfl rfl rfl (by decide) (by decide) (by decide) rfl rfl rfl rfl⟩

/-- createTempScriptFile only advances the temporary-file counter. -/
theorem createTempScriptFile_app (env : Env) (s : AppState) (c : String) (i : Bool) :
    (createTempScriptFile env s c i).app = { s with nextTempId := s.nextTempId + 1 } := by
  unfold createTempScriptFile
  cases env.tempFile s.nextTempId <;> rfl

/-- buildCommandLine leaves the calendar untouched. -/
theorem buildCommandLine_calendar (env : Env) (s : AppState) (c : String)
    (f : ProcFlags) :
    (buildCommandLine env s c f).1.calendar = s.calendar := by
  unfold buildCommandLine
  split_ifs <;> try rfl
  all_goals (dsimp only; split <;> simp [createTempScriptFile_app])

/-- doShellCommand leaves the calendar untouched. -/
theorem doShellCommand_calendar (env : Env) (s : AppState) (c : String)
    (e : KAEvent) (al : Option KAAlarm) (f : ProcFlags) :
    (doShellCommand env s c e al f).app.calendar = s.calendar := by
  have hb := buildCommandLine_calendar env s c f
  unfold doShellCommand
  dsimp only
  split
  · exact hb
  · split <;> simpa using hb

/-- execAlarmDisplay only manipulates message windows; the calendar is
untouched. -/
theorem execAlarmDisplay_calendar (s : AppState) (e : KAEvent) (a : KAAlarm)
    (r d : Bool) (win : Option MessageWinInfo) (pre : List Effect) :
    (execAlarmDisplay s e a r d win pre).app.calendar = s.calendar := by
  unfold execAlarmDisplay
  repeat' split
  all_goals rfl

/-- execAlarmFinish with rescheduling disabled returns the state unchanged. -/
theorem execAlarmFinish_false (env : Env) (s : AppState) (e : KAEvent)
    (a : KAAlarm) (effs : List Effect) (ok : Bool) :
    execAlarmFinish env s e a false effs ok = ⟨s, e, effs, ok⟩ := by
  unfold execAlarmFinish
  simp

/-- execAlarm with rescheduling disabled never touches the calendar: no
reschedule of the event is persisted as a result of the execution. -/
theorem execAlarm_false_calendar (env : Env) (s : AppState) (e : KAEvent)
    (a : KAAlarm) (d n : Bool) :
    (execAlarm env s e a false d n).app.calendar = s.calendar := by
  unfold execAlarm execAlarmInner
  dsimp only
  split
  · simp
  · split
    all_goals repeat' split
    all_goals
      simp only [execAlarmFinish_false, execAlarmDisplay_calendar,
        doShellCommand_calendar, createTempScriptFile_app]

/-- Claim C7: when the alarm scan selects no alarm as due, handleEvent with
function TRIGGER force-executes the event's first alarm regardless of
due-ness (the trace records the execAlarm invocation with reschedule =
false), and that forced execution persists no reschedule: it leaves the
calendar exactly as the scan left it. -/
theorem handleEvent_trigger_forces_first_alarm (env : Env) (s : AppState)
    (eventID : String) (event : KAEvent)
    (hfind : Calendar.find s.calendar eventID = some event)
    (hnone : (handleEventScan env s event).alarmToExecute = none)
    (hvalid : (handleEventScan env s event).event.firstAlarm.valid = true) :
    Effect.execAlarmCall (handleEventScan env s event).event.id
        (handleEventScan env s event).event.firstAlarm.atype false true false
      ∈ (handleEvent env s eventID .trigger).effects ∧
    (execAlarm env (handleEventScan env s event).app (handleEventScan env s event).event
        (handleEventScan env s event).event.firstAlarm false true false).app.calendar =
      (handleEventScan env s event).app.calendar := by
  refine ⟨?_, execAlarm_false_calendar env _ _ _ _ _⟩
  unfold handleEvent
  rw [hfind]
  simp only [hnone, hvalid]
  split <;> simp [execAlarm]

/-- witness for C7: triggering a not-yet-due event force-executes its main
alarm without touching the calendar. -/
theorem handleEvent_trigger_forces_first_alarm_witness :
    (Calendar.find appC7W.calendar "c7" = some eventC7W ∧
      (handleEventScan envW appC7W eventC7W).alarmToExecute = none ∧
      (handleEventScan envW appC7W eventC7W).event.firstAlarm.valid = true) ∧
    (Effect.execAlarmCall (handleEventScan envW appC7W eventC7W).event.id
        (handleEventScan envW appC7W eventC7W).event.firstAlarm.atype false true false
      ∈ (handleEvent envW appC7W "c7" .trigger).effects ∧
     (execAlarm envW (handleEventScan envW appC7W eventC7W).app
        (handleEventScan envW appC7W eventC7W).event
        (handleEventScan envW appC7W eventC7W).event.firstAlarm false true
        false).app.calendar =
      (handleEventScan envW appC7W eventC7W).app.calendar) :=
  ⟨⟨rfl, rfl, rfl⟩,
   handleEvent_trigger_forces_first_alarm envW appC7W "c7" eventC7W rfl rfl rfl⟩

/-- cancelAlarm emits no execAlarm invocations and deletes no temporary
files. -/
theorem cancelAlarm_effects_benign (s : AppState) (e : KAEvent) (t : AlarmType)
    (u : Bool) :
    (cancelAlarm s e t u).effects.filter Effect.isExecCall = [] ∧
    (cancelAlarm s e t u).effects.filter Effect.isRemoveTemp = [] := by
  unfold cancelAlarm
  dsimp only
  repeat' split
  all_goals
    simp [KAlarm.deleteEvent, KAlarm.updateEvent, KAlarm.addArchivedEvent,
      Effect.isExecCall, Effect.isRemoveTemp, List.filter_append]

/-- cancelAlarm never touches the command tracker. -/
theorem cancelAlarm_tracker (s : AppState) (e : KAEvent) (t : AlarmType)
    (u : Bool) :
    (cancelAlarm s e t u).app.tracker = s.tracker := by
  unfold cancelAlarm
  dsimp only
  repeat' split
  all_goals simp [KAlarm.deleteEvent, KAlarm.updateEvent]

/-- rescheduleFinish keeps the tracker and filters its appended trace like
the incoming one. -/
theorem rescheduleFinish_benign (s : AppState) (e : KAEvent)
    (update updateDisplay : Bool) (effs : List Effect) :
    (rescheduleFinish s e update updateDisplay effs).app.tracker = s.tracker ∧
    (rescheduleFinish s e update updateDisplay effs).effects.filter Effect.isExecCall =
      effs.filter Effect.isExecCall ∧
    (rescheduleFinish s e update updateDisplay effs).effects.filter Effect.isRemoveTemp =
      effs.filter Effect.isRemoveTemp := by
  unfold rescheduleFinish
  repeat' split
  all_goals
    simp [KAlarm.updateEvent, Effect.isExecCall, Effect.isRemoveTemp,
      List.filter_append]

/-- rescheduleDropDeferral keeps the tracker and filters its trace like the
incoming one. -/
theorem rescheduleDropDeferral_benign (s : AppState) (e : KAEvent)
    (update updateDisplay : Bool) (effs : List Effect) :
    (rescheduleDropDeferral s e update updateDisplay effs).app.tracker = s.tracker ∧
    (rescheduleDropDeferral s e update updateDisplay effs).effects.filter
      Effect.isExecCall = effs.filter Effect.isExecCall ∧
    (rescheduleDropDeferral s e update updateDisplay effs).effects.filter
      Effect.isRemoveTemp = effs.filter Effect.isRemoveTemp := by
  unfold rescheduleDropDeferral
  split <;> exact rescheduleFinish_benign _ _ _ _ _

/-- rescheduleAlarm emits no execAlarm invocations and deletes no temporary
files. -/
theorem rescheduleAlarm_effects_benign (env : Env) (s : AppState) (e : KAEvent)
    (a : KAAlarm) (u : Bool) :
    (rescheduleAlarm env s e a u).effects.filter Effect.isExecCall = [] ∧
    (rescheduleAlarm env s e a u).effects.filter Effect.isRemoveTemp = [] := by
  unfold rescheduleAlarm
  dsimp only
  repeat' split
  all_goals
    simp [rescheduleFinish_benign, rescheduleDropDeferral_benign,
      cancelAlarm_effects_benign]

/-- rescheduleAlarm never touches the command tracker. -/
theorem rescheduleAlarm_tracker (env : Env) (s : AppState) (e : KAEvent)
    (a : KAAlarm) (u : Bool) :
    (rescheduleAlarm env s e a u).app.tracker = s.tracker := by
  unfold rescheduleAlarm
  dsimp only
  repeat' split
  all_goals
    simp [rescheduleFinish_benign, rescheduleDropDeferral_benign,
      cancelAlarm_tracker]

/-- the display portion of execAlarm touches neither the tracker nor the
execAlarm/temporary-file parts of the trace. -/
theorem execAlarmDisplay_benign (s : AppState) (e : KAEvent) (a : KAAlarm)
    (r d : Bool) (win : Option MessageWinInfo) (pre : List Effect) :
    (execAlarmDisplay s e a r d win pre).app.tracker = s.tracker ∧
    (execAlarmDisplay s e a r d win pre).effects.filter Effect.isExecCall =
      pre.filter Effect.isExecCall ∧
    (execAlarmDisplay s e a r d win pre).effects.filter Effect.isRemoveTemp =
      pre.filter Effect.isRemoveTemp := by
  unfold execAlarmDisplay
  repeat' split
  all_goals
    simp [Effect.isExecCall, Effect.isRemoveTemp, List.filter_append]

/-- a pre-action follow-up execAlarm (noPreAction = true, display action):
the tracker is unchanged, the trace holds exactly one execAlarm invocation —
the follow-up itself — and no temporary-file deletions. -/
theorem execAlarm_preaction_followup (env : Env) (s : AppState) (e : KAEvent)
    (a : KAAlarm) (r d : Bool)
    (hact : a.action = AlarmAction.message ∨ a.action = AlarmAction.file) :
    (execAlarm env s e a r d true).app.tracker = s.tracker ∧
    (execAlarm env s e a r d true).effects.filter Effect.isExecCall =
      [Effect.execAlarmCall e.id a.atype r d true] ∧
    (execAlarm env s e a r d true).effects.filter Effect.isRemoveTemp = [] := by
  unfold execAlarm execAlarmInner
  dsimp only
  rcases hact with h | h <;> rw [h] <;>
    repeat' split
  all_goals
    simp_all [execAlarmDisplay_benign, rescheduleAlarm_tracker,
      rescheduleAlarm_effects_benign, Effect.isExecCall, Effect.isRemoveTemp]

/-- the search loop of slotCommandExited skips records of other processes. -/
theorem slotCommandExitedFind_skip (env : Env) (s : AppState) (procId : Nat)
    (nrm : Bool) (pre rest : List ProcData)
    (hpre : ∀ q ∈ pre, q.process ≠ procId) :
    slotCommandExitedFind env s procId nrm (pre ++ rest) =
      slotCommandExitedFind env s procId nrm rest := by
  induction pre with
  | nil => rfl
  | cons q qs ih =>
      rw [List.cons_append]
      have step : slotCommandExitedFind env s procId nrm (q :: (qs ++ rest)) =
          slotCommandExitedFind env s procId nrm (qs ++ rest) := by
        conv_lhs => rw [slotCommandExitedFind]
        rw [if_neg (hpre q (List.mem_cons_self q qs))]
      rw [step]
      exact ih (fun x hx => hpre x (List.mem_cons_of_mem q hx))

/-- removing the exited process's record removes exactly it. -/
theorem removeFirstProc_append (procId : Nat) (pre post : List ProcData)
    (pd : ProcData)
    (hpre : ∀ q ∈ pre, q.process ≠ procId) (hpd : pd.process = procId) :
    removeFirstProc procId (pre ++ pd :: post) = pre ++ post := by
  induction pre with
  | nil =>
      rw [List.nil_append, List.nil_append]
      unfold removeFirstProc
      rw [if_pos hpd]
  | cons q qs ih =>
      rw [List.cons_append, List.cons_append]
      unfold removeFirstProc
      rw [if_neg (hpre q (List.mem_cons_self q qs))]
      rw [ih (fun x hx => hpre x (List.mem_cons_of_mem q hx))]

/-- temporary-file deletion records contain no execAlarm invocations. -/
theorem filter_removeTemp_execCall (l : List String) :
    (l.map Effect.removeTempFile).filter Effect.isExecCall = [] := by
  induction l with
  | nil => rfl
  | cons x xs ih => simp [Effect.isExecCall, ih]

/-- temporary-file deletion records are all temporary-file deletions. -/
theorem filter_removeTemp_self (l : List String) :
    (l.map Effect.removeTempFile).filter Effect.isRemoveTemp =
      l.map Effect.removeTempFile := by
  induction l with
  | nil => rfl
  | cons x xs ih => simp [Effect.isRemoveTemp, ih]

/-- Claim C9: when the process of a tracked record flagged PRE_ACTION exits
normally, slotCommandExited makes exactly one follow-up execAlarm invocation
for the record's event and alarm with noPreAction = true, after which the
record is removed from the tracker and deleted — its temporary files being
removed exactly once. -/
theorem slotCommandExited_preaction (env : Env) (s : AppState) (procId : Nat)
    (pre post : List ProcData) (pd : ProcData) (a : KAAlarm)
    (htrk : s.tracker = pre ++ pd :: post)
    (hpre : ∀ q ∈ pre, q.process ≠ procId)
    (hpd : pd.process = procId)
    (hflag : pd.flags.preAction = true)
    (halarm : pd.alarm = some a)
    (hact : a.action = AlarmAction.message ∨ a.action = AlarmAction.file) :
    (slotCommandExited env s procId true).2.filter Effect.isExecCall =
      [Effect.execAlarmCall pd.event.id a.atype pd.flags.reschedule
        pd.flags.allowDefer true] ∧
    (slotCommandExited env s procId true).1.tracker = pre ++ post ∧
    (slotCommandExited env s procId true).2.filter Effect.isRemoveTemp =
      pd.tempFiles.map Effect.removeTempFile := by
  obtain ⟨htr, hfc, hft⟩ := execAlarm_preaction_followup env s pd.event a
    pd.flags.reschedule pd.flags.allowDefer hact
  have hrm : removeFirstProc procId s.tracker = pre ++ post := by
    rw [htrk]
    exact removeFirstProc_append procId pre post pd hpre hpd
  unfold slotCommandExited
  rw [htrk, slotCommandExitedFind_skip env s procId true pre (pd :: post) hpre]
  unfold slotCommandExitedFind
  rw [if_pos hpd, hflag, halarm]
  dsimp only
  rcases hlog : pd.logProcess with _ | lp <;>
    simp [hlog, List.filter_append, hfc, hft, htr, hrm,
      filter_removeTemp_execCall, filter_removeTemp_self,
      Effect.isExecCall, Effect.isRemoveTemp] <;>
    constructor <;> (intros; subst_vars; rfl)

/-- witness for C9: a concrete tracker holding one PRE_ACTION record whose
process exits normally. -/
theorem slotCommandExited_preaction_witness :
    (appC9W.tracker = [] ++ pdC9W :: [] ∧ pdC9W.process = 7 ∧
      pdC9W.flags.preAction = true ∧ pdC9W.alarm = some alarmC4W) ∧
    ((slotCommandExited envW appC9W 7 true).2.filter Effect.isExecCall =
      [Effect.execAlarmCall pdC9W.event.id alarmC4W.atype pdC9W.flags.reschedule
        pdC9W.flags.allowDefer true] ∧
     (slotCommandExited envW appC9W 7 true).1.tracker = [] ++ [] ∧
     (slotCommandExited envW appC9W 7 true).2.filter Effect.isRemoveTemp =
      pdC9W.tempFiles.map Effect.removeTempFile) :=
  ⟨⟨rfl, rfl, rfl, rfl⟩,
   slotCommandExited_preaction envW appC9W 7 [] [] pdC9W alarmC4W
     rfl (fun q hq => absurd hq (List.not_mem_nil q)) rfl rfl rfl (Or.inl rfl)⟩

end Kalarm
